import Mathlib

/-!
Shallow embedding of `src/app.py` (pythonAccessSystem): the identity store,
event normalizer, audit log, protocol translator and enrollment gateway, with
the SQLite tables modelled as in-memory lists and the AUTOINCREMENT id
counters made explicit.

Timestamps are modelled as natural numbers: the program stores server-clock
ISO-8601 strings whose lexicographic SQL comparison agrees with chronological
order, so an order-isomorphic numeric encoding preserves every comparison the
code performs (the `BETWEEN` / `>=` / `<=` filters and `ORDER BY`).
-/

namespace PyAccess

/-- A loosely-typed JSON/Python value as it appears in request payloads and
in SQLite storage cells (`vNull` is both Python `None` and SQL NULL,
`vReal` is SQL REAL / Python float).  REAL values are carried as exact
rationals: the IEEE-754 double rounding that the engine applies when it
parses a literal is not modelled, which is exact for every literal whose
decimal value a double represents exactly (all values exercised below).
Integers are carried unbounded; a Python integer outside the signed 64-bit
range would make the sqlite3 driver raise OverflowError at bind time, and
every integer appearing below is in range. -/
inductive Value where
  | vInt (n : Int)
  | vReal (q : Rat)
  | vStr (s : String)
  | vBool (b : Bool)
  | vNull
  deriving DecidableEq

/-- The decimal value of a digit character, `none` for a non-digit. -/
def charDigit? (c : Char) : Option Nat :=
  if c.toNat ≥ 48 && c.toNat ≤ 57 then some (c.toNat - 48) else none

/-- Accumulate a run of decimal digits; fails on the first non-digit. -/
def parseDigitsAux : List Char → Nat → Option Nat
  | [], acc => some acc
  | c :: cs, acc =>
    match charDigit? c with
    | some d => parseDigitsAux cs (acc * 10 + d)
    | none => none

/-- Parse a string that is an integer literal (optional minus sign followed
by decimal digits); the lossless text-to-integer conversion both Python's
`int` and SQLite's INTEGER affinity perform (both additionally tolerate
surrounding whitespace and an explicit plus sign, which no claim
exercises). -/
def strToInt? (s : String) : Option Int :=
  match s.data with
  | [] => none
  | c :: cs =>
    if c = '-' then
      match cs with
      | [] => none
      | _ => (parseDigitsAux cs 0).map (fun n => -(n : Int))
    else (parseDigitsAux (c :: cs) 0).map (fun n => (n : Int))

/-- Split the leading run of decimal digits from a character list. -/
def takeDigits : List Char → List Nat × List Char
  | [] => ([], [])
  | c :: cs =>
    match charDigit? c with
    | some d =>
      let p := takeDigits cs
      (d :: p.1, p.2)
    | none => ([], c :: cs)

/-- Numeric value of a digit run. -/
def digitsVal (ds : List Nat) : Nat :=
  ds.foldl (fun a d => a * 10 + d) 0

/-- Parse a string that is a well-formed SQL numeric literal — optional
sign, digits with an optional fraction part, optional signed exponent, with
at least one digit — into its exact value written as `±n × 10^e`: the
returned triple is the sign, the digit string's value `n`, and the decimal
exponent `e` (the written exponent minus the number of fraction digits).
The engine additionally tolerates surrounding whitespace, which nothing
below exercises. -/
def parseNumeric? (s : String) : Option (Bool × Nat × Int) :=
  let p1 :=
    match s.data with
    | '-' :: r => (true, r)
    | '+' :: r => (false, r)
    | r => (false, r)
  let ipr := takeDigits p1.2
  let fpr :=
    match ipr.2 with
    | '.' :: r => takeDigits r
    | _ => ([], ipr.2)
  if ipr.1.isEmpty && fpr.1.isEmpty then none
  else
    let ex :=
      match fpr.2 with
      | 'e' :: r | 'E' :: r =>
        (match r with
         | '-' :: r' =>
           let ed := takeDigits r'
           (!ed.1.isEmpty, true, digitsVal ed.1, ed.2)
         | '+' :: r' =>
           let ed := takeDigits r'
           (!ed.1.isEmpty, false, digitsVal ed.1, ed.2)
         | r' =>
           let ed := takeDigits r'
           (!ed.1.isEmpty, false, digitsVal ed.1, ed.2))
      | r => (true, false, 0, r)
    if !ex.1 || !ex.2.2.2.isEmpty then none
    else
      some (p1.1, digitsVal (ipr.1 ++ fpr.1),
        (if ex.2.1 then -(ex.2.2.1 : Int) else (ex.2.2.1 : Int)) - fpr.1.length)

/-- Store an integer in an INTEGER-affinity column: kept as INTEGER inside
the signed 64-bit range, widened to REAL beyond it. -/
def intOrWide (i : Int) : Value :=
  if -(2 ^ 63) ≤ i ∧ i < 2 ^ 63 then .vInt i else .vReal (i : Rat)

/-- The value `±n × 10^e` as an INTEGER-affinity column stores it: INTEGER
when the value is integral (checked on the digits, without rational
arithmetic) and in the 64-bit range, REAL otherwise. -/
def sciToValue (neg : Bool) (n : Nat) (e : Int) : Value :=
  if 0 ≤ e then
    let m : Nat := n * 10 ^ e.toNat
    intOrWide (if neg then -(m : Int) else (m : Int))
  else
    let k : Nat := (-e).toNat
    if 10 ^ k ∣ n then
      let m : Nat := n / 10 ^ k
      intOrWide (if neg then -(m : Int) else (m : Int))
    else
      .vReal ((if neg then -1 else 1) * (n : Rat) / ((10 : Rat) ^ k))

/-- Store a REAL value in an INTEGER-affinity column: an integral value in
the signed 64-bit range becomes INTEGER, anything else stays REAL. -/
def numToStored (q : Rat) : Value :=
  if q.den = 1 ∧ -(2 ^ 63) ≤ q.num ∧ q.num < 2 ^ 63 then .vInt q.num
  else .vReal q

/-- INTEGER column affinity as SQLite applies it to the `userId` cells of
`accessLogs` and `faceTemplates` (both declared INTEGER) and to bound query
parameters compared against them: text that is a well-formed numeric
literal is converted to its numeric value (INTEGER when integral and in the
64-bit range — so "1" and "1.0" store the integer 1 and "1e3" stores 1000 —
REAL otherwise, so "1.5" stores the real 1.5), a REAL value is likewise
converted to INTEGER when lossless, a Python boolean is bound as 0/1 by the
sqlite3 driver, and every other value is stored as supplied. -/
def applyIntAffinity : Value → Value
  | .vStr s =>
    match parseNumeric? s with
    | some t => sciToValue t.1 t.2.1 t.2.2
    | none => .vStr s
  | .vReal q => numToStored q
  | .vBool b => .vInt (if b then 1 else 0)
  | v => v

/-- A row of the `users` table. -/
structure User where
  id : Int
  name : String
  role : String
  photoPath : String
  cardNumber : Option String
  registrationDate : Nat
  deriving DecidableEq

/-- A row of the `accessLogs` table; `accessMethod` and `result` hold the
enum wire tokens "face"/"card" and "granted"/"denied" that
`AccessMethod.value` / `AccessResult.value` produce. -/
structure AccessLogEntry where
  id : Nat
  userId : Value
  accessMethod : String
  result : String
  timestamp : Nat
  deviceId : String
  deriving DecidableEq

/-- A row of the `faceTemplates` table. -/
structure FaceTemplateRow where
  id : Nat
  userId : Value
  userName : Value
  faceTemplate : String
  photoData : String
  enrollmentDate : Nat
  deriving DecidableEq

/-- The SQLite database: table contents plus the AUTOINCREMENT counters that
assign the next primary key of each table. -/
structure SystemState where
  users : List User
  faceTemplates : List FaceTemplateRow
  accessLogs : List AccessLogEntry
  nextUserId : Int
  nextTemplateId : Nat
  nextLogId : Nat
  deriving DecidableEq

/-- `AccessSystem.initDatabase`: fresh empty tables, counters at 1. -/
def initDatabase : SystemState :=
  ⟨[], [], [], 1, 1, 1⟩

/-- `AccessSystem.getUserInfo`: `SELECT ... FROM users WHERE id = ?`, first
row; the bound parameter is compared against the INTEGER `id` column under
integer affinity. -/
def getUserInfo (st : SystemState) (userId : Value) : Option User :=
  match applyIntAffinity userId with
  | .vInt n => st.users.find? (fun u => u.id == n)
  | _ => none

/-- `AccessSystem.getUserByCard`: `SELECT ... WHERE cardNumber = ?`; a NULL
card cell never equals a supplied string. -/
def getUserByCard (st : SystemState) (cardNumber : String) : Option User :=
  st.users.find? (fun u => u.cardNumber == some cardNumber)

/-- `AccessSystem.logAccessAttempt`: `INSERT INTO accessLogs ...`; the row id
is the AUTOINCREMENT counter and the `userId` cell receives the supplied
value under INTEGER affinity.  `now` stands for `datetime.datetime.now()`. -/
def logAccessAttempt (st : SystemState) (userId : Value)
    (accessMethod : String) (result : String) (deviceId : String)
    (now : Nat) : SystemState :=
  { st with
    accessLogs :=
      st.accessLogs ++
        [⟨st.nextLogId, applyIntAffinity userId, accessMethod, result, now, deviceId⟩],
    nextLogId := st.nextLogId + 1 }

/-- Response payload of `receiveFaceAccessResult`. -/
structure FaceAccessResponse where
  userId : Value
  userName : String
  accessMethod : String
  result : String
  timestamp : Nat
  deviceId : String
  deriving DecidableEq

/-- Response payload of `receiveCardAccessResult`. -/
structure CardAccessResponse where
  userId : Value
  userName : String
  cardNumber : String
  accessMethod : String
  result : String
  timestamp : Nat
  deviceId : String
  deriving DecidableEq

/-- `AccessSystem.receiveFaceAccessResult`: resolve the supplied id (only
for the display name), log the attempt with the supplied id, and answer. -/
def receiveFaceAccessResult (st : SystemState) (userId : Value)
    (accessGranted : Bool) (deviceId : String) (now : Nat) :
    FaceAccessResponse × SystemState :=
  let result := if accessGranted then "granted" else "denied"
  let userName :=
    match getUserInfo st userId with
    | some u => u.name
    | none => "Unknown User"
  let st' := logAccessAttempt st userId "face" result deviceId now
  (⟨userId, userName, "face", result, now, deviceId⟩, st')

/-- `AccessSystem.receiveCardAccessResult`: resolve the card credential; on
no match the logged identity reference is NULL. -/
def receiveCardAccessResult (st : SystemState) (cardNumber : String)
    (accessGranted : Bool) (deviceId : String) (now : Nat) :
    CardAccessResponse × SystemState :=
  let result := if accessGranted then "granted" else "denied"
  let userInfo := getUserByCard st cardNumber
  let userId : Value :=
    match userInfo with
    | some u => .vInt u.id
    | none => .vNull
  let userName :=
    match userInfo with
    | some u => u.name
    | none => "Unknown User"
  let st' := logAccessAttempt st userId "card" result deviceId now
  (⟨userId, userName, cardNumber, "card", result, now, deviceId⟩, st')

/-- C1: a FACE decision logs the supplied id verbatim even when no such user
exists, a CARD decision with an unmatched credential logs a NULL identity
reference; in both cases exactly one event is appended and the response names
the user "Unknown User". -/
theorem c1_unknown_identity_logging
    (st : SystemState) (now : Nat) (i : Int) (g g' : Bool)
    (dev dev' : String) (c : String)
    (hface : getUserInfo st (.vInt i) = none)
    (hcard : getUserByCard st c = none) :
    (receiveFaceAccessResult st (.vInt i) g dev now).2.accessLogs =
      st.accessLogs ++
        [⟨st.nextLogId, .vInt i, "face", if g then "granted" else "denied", now, dev⟩] ∧
    (receiveFaceAccessResult st (.vInt i) g dev now).1.userName = "Unknown User" ∧
    (receiveCardAccessResult st c g' dev' now).2.accessLogs =
      st.accessLogs ++
        [⟨st.nextLogId, .vNull, "card", if g' then "granted" else "denied", now, dev'⟩] ∧
    (receiveCardAccessResult st c g' dev' now).1.userName = "Unknown User" := by
  refine ⟨?_, ?_, ?_, ?_⟩ <;>
    simp [receiveFaceAccessResult, receiveCardAccessResult, logAccessAttempt,
      applyIntAffinity, hface, hcard]

/-- C1 witness: a fresh store resolves neither id 7 nor card "C9"; the
events are still appended and both responses say "Unknown User". -/
theorem c1_unknown_identity_logging_witness :
    (receiveFaceAccessResult initDatabase (.vInt 7) true "faceScanner01" 5).1.userName =
      "Unknown User" ∧
    (receiveCardAccessResult initDatabase "C9" false "cardReader01" 5).2.accessLogs =
      initDatabase.accessLogs ++
        [⟨initDatabase.nextLogId, .vNull, "card", if false then "granted" else "denied", 5, "cardReader01"⟩] :=
  ⟨(c1_unknown_identity_logging initDatabase 5 7 true false "faceScanner01"
      "cardReader01" "C9" (by decide) (by decide)).2.1,
   (c1_unknown_identity_logging initDatabase 5 7 true false "faceScanner01"
      "cardReader01" "C9" (by decide) (by decide)).2.2.1⟩

/-- `LEFT JOIN users u ON al.userId = u.id`: a stored cell matches an
INTEGER user id only when it is itself an integer (affinity was already
applied when the cell was stored). -/
def joinedUser (users : List User) (e : AccessLogEntry) : Option User :=
  match e.userId with
  | .vInt n => users.find? (fun u => u.id == n)
  | _ => none

/-- One row of the Dahua-shaped SELECT used by both offline-records
endpoints (`RecNo, CreateTime, CardNo, CardName, UserID, Type, Status,
Method, Door, ReaderID`). -/
structure DahuaRow where
  recNo : Nat
  createTime : Nat
  cardNo : Option String
  cardName : Option String
  userIdField : Option String
  recType : String
  status : Int
  method : Int
  door : Int
  readerId : String
  deriving DecidableEq

/-- The SELECT of `getOfflineAccessRecords` (text endpoint), row by row.
`CreateTime` is `strftime` of the stored timestamp, which under the numeric
timestamp encoding is the timestamp itself. -/
def dahuaRowText (users : List User) (e : AccessLogEntry) : DahuaRow :=
  let u := joinedUser users e
  { recNo := e.id
    createTime := e.timestamp
    cardNo := u.bind (fun x => x.cardNumber)
    cardName := u.map (fun x => x.name)
    userIdField := u.map (fun x => x.name)
    recType := if e.accessMethod == "face" then "Entry" else "Entry"
    status := if e.result == "granted" then 1 else 0
    method :=
      if e.accessMethod == "face" then 15
      else if e.accessMethod == "card" then 1 else 1
    door := 1
    readerId := e.deviceId }

/-- The SELECT of `getOfflineAccessRecordsJson` (JSON endpoint); the query
text is a verbatim copy of the text endpoint's. -/
def dahuaRowJson (users : List User) (e : AccessLogEntry) : DahuaRow :=
  let u := joinedUser users e
  { recNo := e.id
    createTime := e.timestamp
    cardNo := u.bind (fun x => x.cardNumber)
    cardName := u.map (fun x => x.name)
    userIdField := u.map (fun x => x.name)
    recType := if e.accessMethod == "face" then "Entry" else "Entry"
    status := if e.result == "granted" then 1 else 0
    method :=
      if e.accessMethod == "face" then 15
      else if e.accessMethod == "card" then 1 else 1
    door := 1
    readerId := e.deviceId }

/-- Python truthiness substitution `cell if cell else default` on an optional
text cell: `None` and `""` are falsy. -/
def strCellOr (default : String) : Option String → String
  | some s => if s == "" then default else s
  | none => default

/-- A Python value held in a formatted record dict.  `pFloat` carries the
decimal rendering of the float constant (only 36.5 occurs; no claim depends
on float arithmetic). -/
inductive PyVal where
  | pInt (n : Int)
  | pStr (s : String)
  | pBool (b : Bool)
  | pFloat (render : String)
  | pNone
  deriving DecidableEq

/-- The `formattedRecord` dict built by the text endpoint, in insertion
order; absent CardNo/CardName/UserID cells are substituted with their
defaults here, before any null check. -/
def formattedRecordText (users : List User) (e : AccessLogEntry) :
    List (String × PyVal) :=
  let r := dahuaRowText users e
  [("RecNo", .pInt r.recNo),
   ("CreateTime", .pInt r.createTime),
   ("CardNo", .pStr (strCellOr "" r.cardNo)),
   ("CardName", .pStr (strCellOr "Unknown" r.cardName)),
   ("CardType", .pInt 0),
   ("UserID", .pStr (strCellOr "Unknown" r.userIdField)),
   ("Type", .pStr r.recType),
   ("Status", .pInt r.status),
   ("Method", .pInt r.method),
   ("Door", .pInt r.door),
   ("ReaderID", .pStr r.readerId),
   ("ErrorCode", .pInt (if r.status == 1 then 0 else 1)),
   ("URL", .pStr ""),
   ("RecordURL", .pStr ""),
   ("IsOverTemperature", .pBool false),
   ("TemperatureUnit", .pInt 0),
   ("CurrentTemperature", .pFloat "36.5"),
   ("CitizenIDResult", .pBool false)]

/-- The record dict built by the JSON endpoint; a verbatim copy of the text
endpoint's formatting. -/
def formattedRecordJson (users : List User) (e : AccessLogEntry) :
    List (String × PyVal) :=
  let r := dahuaRowJson users e
  [("RecNo", .pInt r.recNo),
   ("CreateTime", .pInt r.createTime),
   ("CardNo", .pStr (strCellOr "" r.cardNo)),
   ("CardName", .pStr (strCellOr "Unknown" r.cardName)),
   ("CardType", .pInt 0),
   ("UserID", .pStr (strCellOr "Unknown" r.userIdField)),
   ("Type", .pStr r.recType),
   ("Status", .pInt r.status),
   ("Method", .pInt r.method),
   ("Door", .pInt r.door),
   ("ReaderID", .pStr r.readerId),
   ("ErrorCode", .pInt (if r.status == 1 then 0 else 1)),
   ("URL", .pStr ""),
   ("RecordURL", .pStr ""),
   ("IsOverTemperature", .pBool false),
   ("TemperatureUnit", .pInt 0),
   ("CurrentTemperature", .pFloat "36.5"),
   ("CitizenIDResult", .pBool false)]

/-- Rendering of one dict value on a `records[i].k=v` line: booleans render
lowercase, numbers as plain decimal text, strings as themselves. -/
def renderPyVal : PyVal → String
  | .pBool b => if b then "true" else "false"
  | .pInt n => toString n
  | .pFloat r => r
  | .pStr s => s
  | .pNone => ""

/-- The text endpoint's per-record loop: one `records[i].k=v` line per dict
entry whose value `is not None`. -/
def recordLines (i : Nat) (record : List (String × PyVal)) : List String :=
  (record.filter (fun kv => kv.2 != PyVal.pNone)).map
    (fun kv => "records[" ++ toString i ++ "]." ++ kv.1 ++ "=" ++ renderPyVal kv.2)

/-- Look a field up in a formatted record dict. -/
def fieldOf (record : List (String × PyVal)) (k : String) : PyVal :=
  match record.find? (fun kv => kv.1 == k) with
  | some kv => kv.2
  | none => .pNone

/-- The WHERE clause built by the text endpoint: `BETWEEN ? AND ?` when both
bounds are supplied, `>= ?` when only StartTime, `<= ?` when only EndTime,
`1=1` otherwise. -/
def inRangeText (startTime endTime : Option Nat) (t : Nat) : Bool :=
  match startTime, endTime with
  | some s, some e => s ≤ t && t ≤ e
  | some s, none => s ≤ t
  | none, some e => t ≤ e
  | none, none => true

/-- Filter stage of `getOfflineAccessRecords` (text endpoint). -/
def filterLogsText (startTime endTime : Option Nat)
    (logs : List AccessLogEntry) : List AccessLogEntry :=
  logs.filter (fun e => inRangeText startTime endTime e.timestamp)

/-- The WHERE clause built by the JSON endpoint: `BETWEEN ? AND ?` only when
both bounds are supplied; with one or no bound the clause stays `1=1`. -/
def inRangeJson (startTime endTime : Option Nat) (t : Nat) : Bool :=
  match startTime, endTime with
  | some s, some e => s ≤ t && t ≤ e
  | _, _ => true

/-- Filter stage of `getOfflineAccessRecordsJson`. -/
def filterLogsJson (startTime endTime : Option Nat)
    (logs : List AccessLogEntry) : List AccessLogEntry :=
  logs.filter (fun e => inRangeJson startTime endTime e.timestamp)

/-- Insertion step of the descending `ORDER BY timestamp DESC` sort. -/
def insertByTsDesc (e : AccessLogEntry) :
    List AccessLogEntry → List AccessLogEntry
  | [] => [e]
  | x :: xs =>
    if e.timestamp ≤ x.timestamp then x :: insertByTsDesc e xs
    else e :: x :: xs

/-- `ORDER BY timestamp DESC`.  SQLite leaves the relative order of rows
with equal sort keys unspecified; this sort fixes one deterministic choice,
and no theorem below depends on the order among equal timestamps. -/
def sortByTsDesc : List AccessLogEntry → List AccessLogEntry
  | [] => []
  | x :: xs => insertByTsDesc x (sortByTsDesc xs)

/-- `getOfflineAccessRecords` (the `/cgi-bin/recordFinder.cgi` text
endpoint): validate `action` and `name`, filter, sort, truncate to `count`
(the caller's default is 1024), format each row and render the
`totalCount`/`found` header plus one `records[i].k=v` line per non-null
field, joined by newlines.  `.error` carries the non-200 body and status. -/
def getOfflineAccessRecords (st : SystemState) (action name : String)
    (count : Nat) (startTime endTime : Option Nat) :
    Except (String × Nat) String :=
  if action != "find" then .error ("action=find", 400)
  else if name != "AccessControlCardRec" then
    .error ("name=AccessControlCardRec", 400)
  else
    let rows := (sortByTsDesc (filterLogsText startTime endTime st.accessLogs)).take count
    let header := ["totalCount=" ++ toString rows.length,
                   "found=" ++ toString rows.length]
    let body :=
      (rows.enum.map (fun p => recordLines p.1 (formattedRecordText st.users p.2))).flatten
    .ok (String.intercalate "\n" (header ++ body))

/-- Structured reply of the JSON endpoint. -/
structure OfflineRecordsReply where
  totalCount : Nat
  found : Nat
  records : List (List (String × PyVal))
  deriving DecidableEq

/-- `getOfflineAccessRecordsJson` (the `/api/access/offline-records` JSON
endpoint): no action/name validation, filter (both-bounds only), sort,
truncate to `count` (caller default 1024), format every field with its
default substituted. -/
def getOfflineAccessRecordsJson (st : SystemState) (count : Nat)
    (startTime endTime : Option Nat) : OfflineRecordsReply :=
  let rows := (sortByTsDesc (filterLogsJson startTime endTime st.accessLogs)).take count
  ⟨rows.length, rows.length, rows.map (formattedRecordJson st.users)⟩

/-- C2: in both external encodings, result "granted" iff Status=1 iff
ErrorCode=0, result "denied" iff Status=0 iff ErrorCode=1, and Method is 15
for FACE events and 1 for CARD events.  The hypothesis that the stored
result token is "granted" or "denied" holds for every event the system
appends (`receiveFaceAccessResult` / `receiveCardAccessResult` write only
those two tokens). -/
theorem c2_status_errorcode_method (users : List User) (e : AccessLogEntry)
    (hres : e.result = "granted" ∨ e.result = "denied") :
    ((e.result = "granted" ↔ fieldOf (formattedRecordText users e) "Status" = .pInt 1) ∧
     (fieldOf (formattedRecordText users e) "Status" = .pInt 1 ↔
       fieldOf (formattedRecordText users e) "ErrorCode" = .pInt 0) ∧
     (e.result = "denied" ↔ fieldOf (formattedRecordText users e) "Status" = .pInt 0) ∧
     (fieldOf (formattedRecordText users e) "Status" = .pInt 0 ↔
       fieldOf (formattedRecordText users e) "ErrorCode" = .pInt 1) ∧
     (e.accessMethod = "face" → fieldOf (formattedRecordText users e) "Method" = .pInt 15) ∧
     (e.accessMethod = "card" → fieldOf (formattedRecordText users e) "Method" = .pInt 1)) ∧
    ((e.result = "granted" ↔ fieldOf (formattedRecordJson users e) "Status" = .pInt 1) ∧
     (fieldOf (formattedRecordJson users e) "Status" = .pInt 1 ↔
       fieldOf (formattedRecordJson users e) "ErrorCode" = .pInt 0) ∧
     (e.result = "denied" ↔ fieldOf (formattedRecordJson users e) "Status" = .pInt 0) ∧
     (fieldOf (formattedRecordJson users e) "Status" = .pInt 0 ↔
       fieldOf (formattedRecordJson users e) "ErrorCode" = .pInt 1) ∧
     (e.accessMethod = "face" → fieldOf (formattedRecordJson users e) "Method" = .pInt 15) ∧
     (e.accessMethod = "card" → fieldOf (formattedRecordJson users e) "Method" = .pInt 1)) := by
  have hsT : fieldOf (formattedRecordText users e) "Status" =
      .pInt (if e.result == "granted" then 1 else 0) := rfl
  have heT : fieldOf (formattedRecordText users e) "ErrorCode" =
      .pInt (if (if e.result == "granted" then (1 : Int) else 0) == 1 then 0 else 1) := rfl
  have hmT : fieldOf (formattedRecordText users e) "Method" =
      .pInt (if e.accessMethod == "face" then 15
             else if e.accessMethod == "card" then 1 else 1) := rfl
  have hsJ : fieldOf (formattedRecordJson users e) "Status" =
      .pInt (if e.result == "granted" then 1 else 0) := rfl
  have heJ : fieldOf (formattedRecordJson users e) "ErrorCode" =
      .pInt (if (if e.result == "granted" then (1 : Int) else 0) == 1 then 0 else 1) := rfl
  have hmJ : fieldOf (formattedRecordJson users e) "Method" =
      .pInt (if e.accessMethod == "face" then 15
             else if e.accessMethod == "card" then 1 else 1) := rfl
  rcases hres with h | h <;>
    refine ⟨⟨?_, ?_, ?_, ?_, ?_, ?_⟩, ⟨?_, ?_, ?_, ?_, ?_, ?_⟩⟩ <;>
    first
    | (intro hm
       simp only [hsT, heT, hmT, hsJ, heJ, hmJ, h, hm]
       decide)
    | (simp only [hsT, heT, hmT, hsJ, heJ, hmJ, h]
       decide)

/-- Sample granted FACE event for the C2 witness. -/
def c2Event : AccessLogEntry :=
  ⟨1, .vNull, "face", "granted", 3, "faceScanner01"⟩

/-- C2 witness at a concrete granted FACE event. -/
theorem c2_status_errorcode_method_witness :
    fieldOf (formattedRecordText [] c2Event) "Status" = .pInt 1 ∧
    fieldOf (formattedRecordJson [] c2Event) "ErrorCode" = .pInt 0 ∧
    fieldOf (formattedRecordText [] c2Event) "Method" = .pInt 15 := by
  have h := c2_status_errorcode_method [] c2Event (Or.inl rfl)
  exact ⟨(h.1.1).mp rfl, (h.2.2.1).mp ((h.2.1).mp rfl),
    h.1.2.2.2.2.1 rfl⟩

/-- An integer dict value is never `None`. -/
theorem pInt_bne_pNone (n : Int) : (PyVal.pInt n != PyVal.pNone) = true := rfl

/-- A string dict value is never `None`. -/
theorem pStr_bne_pNone (s : String) : (PyVal.pStr s != PyVal.pNone) = true := rfl

/-- A boolean dict value is never `None`. -/
theorem pBool_bne_pNone (b : Bool) : (PyVal.pBool b != PyVal.pNone) = true := rfl

/-- A float dict value is never `None`. -/
theorem pFloat_bne_pNone (r : String) : (PyVal.pFloat r != PyVal.pNone) = true := rfl

/-- Unresolved-identity CARD event for the C3 counterexample. -/
def c3Event : AccessLogEntry :=
  ⟨1, .vNull, "card", "denied", 10, "cardReader01"⟩

/-- C3 counterexample: for an event whose identity does not resolve, the
text-mode renderer still emits the CardNo, CardName and UserID lines (with
the substituted defaults), instead of omitting them as the claim states. -/
theorem c3_text_omission_counterexample :
    joinedUser [] c3Event = none ∧
    "records[0].CardNo=" ∈ recordLines 0 (formattedRecordText [] c3Event) ∧
    "records[0].CardName=Unknown" ∈ recordLines 0 (formattedRecordText [] c3Event) ∧
    "records[0].UserID=Unknown" ∈ recordLines 0 (formattedRecordText [] c3Event) := by
  decide

/-- C3 amended: both encodings substitute the documented defaults
(CardNo="", CardName="Unknown", UserID="Unknown") before any null check, so
an unresolved-identity event produces identical field sets in the text and
JSON encodings, and the text renderer's omit-if-None filter drops nothing. -/
theorem c3_default_substitution_amended (users : List User)
    (e : AccessLogEntry) (h : joinedUser users e = none) :
    formattedRecordText users e = formattedRecordJson users e ∧
    fieldOf (formattedRecordText users e) "CardNo" = .pStr "" ∧
    fieldOf (formattedRecordText users e) "CardName" = .pStr "Unknown" ∧
    fieldOf (formattedRecordText users e) "UserID" = .pStr "Unknown" ∧
    (formattedRecordText users e).filter (fun kv => kv.2 != PyVal.pNone) =
      formattedRecordText users e := by
  have hc : fieldOf (formattedRecordText users e) "CardNo" =
      .pStr (strCellOr "" ((joinedUser users e).bind (fun x => x.cardNumber))) := rfl
  have hn : fieldOf (formattedRecordText users e) "CardName" =
      .pStr (strCellOr "Unknown" ((joinedUser users e).map (fun x => x.name))) := rfl
  have hu : fieldOf (formattedRecordText users e) "UserID" =
      .pStr (strCellOr "Unknown" ((joinedUser users e).map (fun x => x.name))) := rfl
  refine ⟨?_, ?_, ?_, ?_, ?_⟩
  · simp [formattedRecordText, formattedRecordJson, dahuaRowText, dahuaRowJson]
  · rw [hc, h]; rfl
  · rw [hn, h]; rfl
  · rw [hu, h]; rfl
  · simp [formattedRecordText, List.filter_cons, pInt_bne_pNone, pStr_bne_pNone,
      pBool_bne_pNone, pFloat_bne_pNone]

/-- C3 amended witness: the unresolved-identity event keeps all three
identity fields, with defaults, in the text record. -/
theorem c3_default_substitution_amended_witness :
    formattedRecordText [] c3Event = formattedRecordJson [] c3Event ∧
    fieldOf (formattedRecordText [] c3Event) "CardName" = .pStr "Unknown" := by
  have h := c3_default_substitution_amended [] c3Event (by decide)
  exact ⟨h.1, h.2.2.1⟩

/-- Event stamped 5 for the C5 counterexample. -/
def c5Event : AccessLogEntry :=
  ⟨1, .vNull, "card", "granted", 5, "cardReader01"⟩

/-- Store holding only `c5Event` for the C5 counterexample. -/
def c5State : SystemState :=
  ⟨[], [], [c5Event], 1, 1, 2⟩

/-- C5 counterexample: the JSON offline-records query with only a start
bound of 10 still returns the event stamped 5, although the claim says a
single bound filters open-endedly (which would exclude it). -/
theorem c5_single_bound_counterexample :
    c5Event.timestamp < 10 ∧
    (getOfflineAccessRecordsJson c5State 1024 (some 10) none).found = 1 ∧
    (getOfflineAccessRecordsJson c5State 1024 (some 10) none).records =
      [formattedRecordJson [] c5Event] := by
  decide

/-- C5 amended: the text endpoint filters inclusively with both bounds,
open-endedly with one bound, and not at all with none; the JSON endpoint
filters inclusively only when both bounds are given and is unfiltered in
every other case. -/
theorem c5_range_filtering_amended (logs : List AccessLogEntry)
    (s e : Nat) (x : AccessLogEntry) :
    (x ∈ filterLogsText (some s) (some e) logs ↔
      x ∈ logs ∧ s ≤ x.timestamp ∧ x.timestamp ≤ e) ∧
    (x ∈ filterLogsText (some s) none logs ↔ x ∈ logs ∧ s ≤ x.timestamp) ∧
    (x ∈ filterLogsText none (some e) logs ↔ x ∈ logs ∧ x.timestamp ≤ e) ∧
    filterLogsText none none logs = logs ∧
    (x ∈ filterLogsJson (some s) (some e) logs ↔
      x ∈ logs ∧ s ≤ x.timestamp ∧ x.timestamp ≤ e) ∧
    filterLogsJson (some s) none logs = logs ∧
    filterLogsJson none (some e) logs = logs ∧
    filterLogsJson none none logs = logs := by
  refine ⟨?_, ?_, ?_, ?_, ?_, ?_, ?_, ?_⟩ <;>
    simp [filterLogsText, filterLogsJson, inRangeText, inRangeJson,
      List.mem_filter, and_assoc]

/-- C9: an inverted time range (start strictly after end) makes the text
offline-records query return zero records with a 200 body, not an error. -/
theorem c9_inverted_range_empty (st : SystemState) (count : Nat)
    (t1 t2 : Nat) (h : t2 < t1) :
    getOfflineAccessRecords st "find" "AccessControlCardRec" count
      (some t1) (some t2) = .ok "totalCount=0\nfound=0" := by
  have hf : filterLogsText (some t1) (some t2) st.accessLogs = [] := by
    rw [filterLogsText, List.filter_eq_nil_iff]
    intro a _
    simp only [inRangeText, Bool.and_eq_true, decide_eq_true_eq, not_and]
    omega
  simp [getOfflineAccessRecords, hf, sortByTsDesc, List.take_nil]
  rfl

/-- C9 witness: with an event on file and bounds 5 > 3, the query yields the
empty record set. -/
theorem c9_inverted_range_empty_witness :
    (3 : Nat) < 5 ∧
    getOfflineAccessRecords c5State "find" "AccessControlCardRec" 1024
      (some 5) (some 3) = .ok "totalCount=0\nfound=0" :=
  ⟨by decide, c9_inverted_range_empty c5State 1024 5 3 (by decide)⟩

/-- The arguments of one `logAccessAttempt` call. -/
structure LogRequest where
  userId : Value
  accessMethod : String
  result : String
  deviceId : String
  now : Nat
  deriving DecidableEq

/-- A sequence of `logAccessAttempt` calls against one store instance. -/
def appendAll (st : SystemState) (batch : List LogRequest) : SystemState :=
  batch.foldl
    (fun s r => logAccessAttempt s r.userId r.accessMethod r.result r.deviceId r.now)
    st

/-- A batch of appends extends the log with rows whose ids are the
consecutive counter values, and advances the counter by the batch size. -/
theorem appendAll_split (batch : List LogRequest) (st : SystemState) :
    ∃ newRows : List AccessLogEntry,
      (appendAll st batch).accessLogs = st.accessLogs ++ newRows ∧
      newRows.map (fun e => e.id) = List.range' st.nextLogId batch.length ∧
      (appendAll st batch).nextLogId = st.nextLogId + batch.length := by
  induction batch generalizing st with
  | nil => exact ⟨[], by simp [appendAll], by simp [appendAll], by simp [appendAll]⟩
  | cons r rs ih =>
    obtain ⟨rows, h1, h2, h3⟩ :=
      ih (logAccessAttempt st r.userId r.accessMethod r.result r.deviceId r.now)
    refine ⟨⟨st.nextLogId, applyIntAffinity r.userId, r.accessMethod, r.result,
      r.now, r.deviceId⟩ :: rows, ?_, ?_, ?_⟩
    · have : appendAll st (r :: rs) =
          appendAll (logAccessAttempt st r.userId r.accessMethod r.result
            r.deviceId r.now) rs := by
        simp [appendAll]
      rw [this, h1]
      simp [logAccessAttempt]
    · have : appendAll st (r :: rs) =
          appendAll (logAccessAttempt st r.userId r.accessMethod r.result
            r.deviceId r.now) rs := by
        simp [appendAll]
      simp only [List.map_cons, h2, logAccessAttempt, List.length_cons,
        List.range'_succ]
    · have : appendAll st (r :: rs) =
          appendAll (logAccessAttempt st r.userId r.accessMethod r.result
            r.deviceId r.now) rs := by
        simp [appendAll]
      rw [this] at *
      rw [h3]
      simp [logAccessAttempt]
      omega

/-- C6: appending N events to a single store instance assigns them the
consecutive counter values: the new rows' ids are exactly
`nextLogId, nextLogId+1, ...` — strictly increasing, gap-free and without
repeats. -/
theorem c6_event_ids_monotonic_gapfree (st : SystemState)
    (batch : List LogRequest) :
    ∃ newRows : List AccessLogEntry,
      (appendAll st batch).accessLogs = st.accessLogs ++ newRows ∧
      newRows.map (fun e => e.id) = List.range' st.nextLogId batch.length ∧
      List.Pairwise (fun a b => a < b) (newRows.map (fun e => e.id)) ∧
      (newRows.map (fun e => e.id)).Nodup := by
  obtain ⟨rows, h1, h2, _⟩ := appendAll_split batch st
  refine ⟨rows, h1, h2, ?_, ?_⟩
  · rw [h2]
    exact List.pairwise_lt_range' st.nextLogId batch.length
  · rw [h2]
    exact List.nodup_range' st.nextLogId batch.length

/-- Parsed JSON body of an enrollment request.  A field key absent from the
dict is `none`; `faceTemplates`/`photos` default to `[]` via `data.get`.
An empty dict body is falsy in Python and is modelled as the absent body. -/
structure EnrollRequest where
  userId : Option Value
  userName : Option Value
  faceTemplates : List String
  photos : List String
  deriving DecidableEq

/-- Result of Python `int(x)`: integers pass through, booleans are 0/1,
floats truncate toward zero, a string parses as an integer literal (only —
"1.5" raises) or raises ValueError, `None` raises TypeError (which the
endpoints' generic handler turns into a 500, not the ValueError 400). -/
inductive PyIntResult where
  | ok (n : Int)
  | valueError
  | typeError
  deriving DecidableEq

/-- Truncation toward zero, as Python `int()` applies to a float. -/
def pyTrunc (q : Rat) : Int :=
  if q < 0 then -((-q).floor) else q.floor

/-- Python `int(x)` on a request value. -/
def pyInt : Value → PyIntResult
  | .vInt n => .ok n
  | .vReal q => .ok (pyTrunc q)
  | .vBool b => .ok (if b then 1 else 0)
  | .vStr s =>
    match strToInt? s with
    | some n => .ok n
    | none => .valueError
  | .vNull => .typeError

/-- Classified outcome of the two enrollment entry points (the HTTP message
texts differ between them only in wording, not in classification). -/
inductive EnrollOutcome where
  | noData
  | missingField (field : String)
  | invalidUserIdFormat
  | internalError
  | userNotFound (userId : Value)
  | limitTemplates
  | limitPhotos
  | stored (userId userName : Value) (templatesCount photosCount : Nat)
  deriving DecidableEq

/-- Whether an outcome is the success (persisting) outcome. -/
def EnrollOutcome.isStored : EnrollOutcome → Bool
  | .stored _ _ _ _ => true
  | _ => false

/-- The per-template INSERT loop of `addFaceTemplate`: row i pairs
template i with photo i when present, empty string otherwise; the INTEGER
`userId` column applies affinity to the raw request value. -/
def insertTemplateRows (startId : Nat) (uid uname : Value)
    (templates photos : List String) (now : Nat) : List FaceTemplateRow :=
  (List.range templates.length).map (fun i =>
    ⟨startId + i, applyIntAffinity uid, uname,
      templates.getD i "", photos.getD i "", now⟩)

/-- The body of `AccessSystem.addFaceTemplate` as written (app.py:239-301):
presence validation, `int(userId)` parse, user lookup, cardinality limits,
then one stored row per template.  This body never executes in the program
— see `addFaceTemplate`. -/
def addFaceTemplateBody (st : SystemState) (data : Option EnrollRequest)
    (now : Nat) : EnrollOutcome × SystemState :=
  match data with
  | none => (.noData, st)
  | some d =>
    match d.userId with
    | none => (.missingField "userId", st)
    | some uid =>
      match d.userName with
      | none => (.missingField "userName", st)
      | some uname =>
        match pyInt uid with
        | .valueError => (.invalidUserIdFormat, st)
        | .typeError => (.internalError, st)
        | .ok n =>
          match getUserInfo st (.vInt n) with
          | none => (.userNotFound uid, st)
          | some _ =>
            if d.faceTemplates.length > 20 then (.limitTemplates, st)
            else if d.photos.length > 5 then (.limitPhotos, st)
            else
              (.stored uid uname d.faceTemplates.length d.photos.length,
               { st with
                 faceTemplates := st.faceTemplates ++
                   insertTemplateRows st.nextTemplateId uid uname
                     d.faceTemplates d.photos now,
                 nextTemplateId := st.nextTemplateId + d.faceTemplates.length })

/-- `AccessSystem.addFaceTemplate` as the program can actually reach it:
the def at app.py:237 lacks the `self` parameter, so the bound-method call
`system.addFaceTemplate()` in `manageFaceInfo` (app.py:486) raises
TypeError before one line of the body runs, and the route's generic
exception handler answers 500.  No validation is performed and no row is
written, whatever the request. -/
def addFaceTemplate (st : SystemState) (_data : Option EnrollRequest)
    (_now : Nat) : EnrollOutcome × SystemState :=
  (.internalError, st)

/-- `enrollFaceJson` (the log-only `/api/face/enroll` entry point): the
validation cascade written in `addFaceTemplateBody`, with the payload
deliberately discarded instead of stored. -/
def enrollFaceJson (st : SystemState) (data : Option EnrollRequest) :
    EnrollOutcome :=
  match data with
  | none => .noData
  | some d =>
    match d.userId with
    | none => .missingField "userId"
    | some uid =>
      match d.userName with
      | none => .missingField "userName"
      | some uname =>
        match pyInt uid with
        | .valueError => .invalidUserIdFormat
        | .typeError => .internalError
        | .ok n =>
          match getUserInfo st (.vInt n) with
          | none => .userNotFound uid
          | some _ =>
            if d.faceTemplates.length > 20 then .limitTemplates
            else if d.photos.length > 5 then .limitPhotos
            else .stored uid uname d.faceTemplates.length d.photos.length

/-- The validation cascades of the two enrollment bodies, as written, agree
on every store state and request: same accepted inputs, same rejection
classification, same reported counts. -/
theorem addFaceTemplateBody_matches_enrollFaceJson (st : SystemState)
    (data : Option EnrollRequest) (now : Nat) :
    (addFaceTemplateBody st data now).1 = enrollFaceJson st data := by
  cases data with
  | none => rfl
  | some d =>
    cases hu : d.userId with
    | none => simp [addFaceTemplateBody, enrollFaceJson, hu]
    | some uid =>
      cases hn : d.userName with
      | none => simp [addFaceTemplateBody, enrollFaceJson, hu, hn]
      | some un =>
        cases hp : pyInt uid with
        | valueError => simp [addFaceTemplateBody, enrollFaceJson, hu, hn, hp]
        | typeError => simp [addFaceTemplateBody, enrollFaceJson, hu, hn, hp]
        | ok n =>
          cases hg : getUserInfo st (.vInt n) with
          | none => simp [addFaceTemplateBody, enrollFaceJson, hu, hn, hp, hg]
          | some u =>
            by_cases h20 : d.faceTemplates.length > 20
            · simp [addFaceTemplateBody, enrollFaceJson, hu, hn, hp, hg, h20]
            · by_cases h5 : d.photos.length > 5 <;>
                simp [addFaceTemplateBody, enrollFaceJson, hu, hn, hp, hg, h20, h5]

/-- Registered user 1 for the enrollment scenarios. -/
def c8User : User :=
  ⟨1, "Alice", "employee", "p1", some "C100", 0⟩

/-- Store knowing user 1 for the enrollment scenarios. -/
def c8State : SystemState :=
  ⟨[c8User], [], [], 2, 1, 1⟩

/-- A fully valid enrollment request for user 1. -/
def c7Request : EnrollRequest :=
  ⟨some (.vInt 1), some (.vStr "Alice"), ["t1"], ["p1"]⟩

/-- An over-limit enrollment request (21 templates) for user 1. -/
def c8Request : EnrollRequest :=
  ⟨some (.vInt 1), some (.vStr "Alice"), List.replicate 21 "t", []⟩

/-- C7: the persisting entry point answers 500 for a fully valid enrollment
that the log-only endpoint accepts, because the def without `self` makes
every bound-method call raise TypeError before any validation runs; the
written body, had it been reachable, classifies exactly as the log-only
endpoint does. -/
theorem c7_dead_persisting_entry_point :
    addFaceTemplate c8State (some c7Request) 3 = (.internalError, c8State) ∧
    enrollFaceJson c8State (some c7Request) =
      .stored (.vInt 1) (.vStr "Alice") 1 1 ∧
    (addFaceTemplateBody c8State (some c7Request) 3).1 =
      enrollFaceJson c8State (some c7Request) := by
  decide

/-- C8: an over-limit enrollment call (21 templates, user 1 resolvable) is
answered 500 by the unreachable persisting entry point — not the
LimitExceeded of the claim — though no row is written either way; the
written body, had it been reachable, would classify it LimitExceeded with
the store unchanged. -/
theorem c8_overlimit_entry_point_500 :
    c8Request.faceTemplates.length > 20 ∧
    addFaceTemplate c8State (some c8Request) 3 = (.internalError, c8State) ∧
    (addFaceTemplateBody c8State (some c8Request) 3).1 = .limitTemplates ∧
    (addFaceTemplateBody c8State (some c8Request) 3).2 = c8State := by
  decide

/-- Parsed JSON body of `POST /api/access/face`; a key absent from the dict
is `none` (a key present with JSON null is `some .vNull`). -/
structure FaceAccessRequest where
  userId : Option Value
  accessGranted : Option Value
  deviceId : Option String
  deriving DecidableEq

/-- HTTP-level result of `submit_face_access`. -/
inductive SubmitResult where
  | badRequest (msg : String)
  | logged (resp : FaceAccessResponse)
  deriving DecidableEq

/-- Python truthiness, as `AccessResult.GRANTED if accessGranted else
DENIED` evaluates it on an arbitrary value. -/
def truthy : Value → Bool
  | .vBool b => b
  | .vInt n => n != 0
  | .vReal q => q != 0
  | .vStr s => s != ""
  | .vNull => false

/-- `submit_face_access`: reject an absent body, check only the presence of
`userId` and `accessGranted` (never their types), then hand the raw values
to `receiveFaceAccessResult` with the defaulted device id. -/
def submitFaceAccess (st : SystemState) (data : Option FaceAccessRequest)
    (now : Nat) : SubmitResult × SystemState :=
  match data with
  | none => (.badRequest "No JSON data provided", st)
  | some d =>
    match d.userId, d.accessGranted with
    | some uid, some g =>
      let r := receiveFaceAccessResult st uid (truthy g)
        (d.deviceId.getD "faceScanner01") now
      (.logged r.1, r.2)
    | _, _ =>
      (.badRequest "Missing required fields: userId and accessGranted", st)

/-- C10 counterexample: submitting `userId = "1"` (a numeric string) is
accepted and appends exactly one event, but the stored identity reference
is the integer 1 produced by the INTEGER column's affinity conversion, not
the string "1" verbatim as the claim states. -/
theorem c10_verbatim_counterexample :
    (submitFaceAccess initDatabase
        (some ⟨some (.vStr "1"), some (.vBool true), none⟩) 7).2.accessLogs.map
      (fun e => e.userId) = [.vInt 1] ∧
    Value.vInt 1 ≠ .vStr "1" := by
  decide

/-- C10 amended: presence of `userId` and `accessGranted` is all that is
validated; any value is accepted, exactly one AccessEvent is appended whose
identity reference is the supplied value after the INTEGER column's
numeric-affinity coercion — numeric-literal text, booleans and floats are
stored numerically, as an integer when the value is integral and within the
signed 64-bit range and as a REAL otherwise, so only non-numeric text and
null are recorded verbatim — and the response names the user
"Unknown User" when the value resolves to no stored identity. -/
theorem c10_presence_only_validation_amended (st : SystemState) (now : Nat)
    (uid g : Value) (dev : Option String)
    (hno : getUserInfo st uid = none) :
    ∃ resp : FaceAccessResponse,
      (submitFaceAccess st (some ⟨some uid, some g, dev⟩) now).1 =
        .logged resp ∧
      resp.userName = "Unknown User" ∧
      (submitFaceAccess st (some ⟨some uid, some g, dev⟩) now).2.accessLogs =
        st.accessLogs ++
          [⟨st.nextLogId, applyIntAffinity uid, "face",
            if truthy g then "granted" else "denied", now,
            dev.getD "faceScanner01"⟩] := by
  refine ⟨(receiveFaceAccessResult st uid (truthy g)
    (dev.getD "faceScanner01") now).1, rfl, ?_, ?_⟩
  · simp [receiveFaceAccessResult, hno]
  · simp [submitFaceAccess, receiveFaceAccessResult, logAccessAttempt]

/-- C10 amended witness: a non-numeric string id is accepted, logged
verbatim, and answered with "Unknown User". -/
theorem c10_presence_only_validation_amended_witness :
    getUserInfo initDatabase (.vStr "abc") = none ∧
    (∃ resp : FaceAccessResponse,
      (submitFaceAccess initDatabase
          (some ⟨some (.vStr "abc"), some (.vBool true), none⟩) 7).1 =
        .logged resp ∧
      resp.userName = "Unknown User" ∧
      (submitFaceAccess initDatabase
          (some ⟨some (.vStr "abc"), some (.vBool true), none⟩) 7).2.accessLogs =
        initDatabase.accessLogs ++
          [⟨initDatabase.nextLogId, applyIntAffinity (.vStr "abc"), "face",
            if truthy (.vBool true) then "granted" else "denied", 7,
            (none : Option String).getD "faceScanner01"⟩]) :=
  ⟨by decide,
   c10_presence_only_validation_amended initDatabase 7 (.vStr "abc")
     (.vBool true) none (by decide)⟩

end PyAccess
